import Mathlib

/-
Verification of the bigquery-emulator process-lifecycle coordinator
(src/cmd/bigquery-emulator/main.go).

The file is a shallow embedding of `main.go`: the pure configuration
mapping (`selectStorage`, `buildProject`), the setup-and-serve control
flow of `runServer`, the exit-code mapping of `run`, and the body of the
signal-watch goroutine.  The external engine collaborator
(`server.New`, `SetProject`, `Load`, `SetLogLevel`, `SetLogFormat`,
`Serve`, `Stop`) is opaque to the coordinator; it is embedded as a
record of the outcomes each call can deliver (`EngineBehavior`),
and `runServer` is additionally instrumented with an event trace that
records which calls were made and in which order, so that ordering and
"never started" properties are statable.
-/

namespace BQE

/-- A Go `error` value as the coordinator observes it: either the
`http.ErrServerClosed` sentinel (the only error the coordinator compares
against, via `errors.Is`) or any other error carrying a message. -/
inductive GoError where
  | serverClosed
  | msg (s : String)
deriving Repr, DecidableEq

/-- The message of an error, as `%v` would print it. -/
def GoError.message : GoError → String
  | GoError.serverClosed => "http: Server closed"
  | GoError.msg s => s

/-- `server.Storage` is a string-typed storage handle (a DSN). -/
abbrev Storage := String

/-- Modelled from the spec: `server.TempStorage` is the ephemeral
in-memory handle.  Its concrete string lives in the `server` package,
which is absent from the sources; only its role as a distinguished
constant matters here. -/
def TempStorage : Storage := "memory-temporary-storage"

/-- The storage selection of `runServer` (main.go lines 92-97): empty
database path selects the ephemeral handle, a non-empty path selects
the shared-cache file DSN built by `fmt.Sprintf("file:%s?cache=shared", path)`. -/
def selectStorage (database : String) : Storage :=
  if database = "" then TempStorage
  else "file:" ++ database ++ "?cache=shared"

/-- A dataset (sub-collection) as the coordinator builds it. -/
structure Dataset where
  ID : String
deriving Repr, DecidableEq

/-- A project (tenant) tree: an identifier and its datasets. -/
structure Project where
  ID : String
  Datasets : List Dataset
deriving Repr, DecidableEq

/-- Modelled from the spec: `types.NewProject` (in the `types` package,
absent from the sources) builds a tenant with the given identifier and
no sub-collections. -/
def NewProject (id : String) : Project := { ID := id, Datasets := [] }

/-- Modelled from the spec: `types.NewDataset` (in the `types` package,
absent from the sources) builds a sub-collection with the given name. -/
def NewDataset (id : String) : Dataset := { ID := id }

/-- The tenant assembly of `runServer` (main.go lines 98-101):
`project := types.NewProject(opt.Project)` followed by appending
`types.NewDataset(opt.Dataset)` exactly when `opt.Dataset != ""`. -/
def buildProject (projectID datasetID : String) : Project :=
  let project := NewProject projectID
  if datasetID = "" then project
  else { project with Datasets := project.Datasets ++ [NewDataset datasetID] }

/-- The parsed command-line/environment configuration (the `option`
struct of main.go).  Enum-like fields (`LogLevel`, `LogFormat`) are
opaque strings already validated by the excluded parser. -/
structure option where
  Project : String
  Dataset : String
  Host : String
  HTTPPort : Nat
  GRPCPort : Nat
  LogLevel : String
  LogFormat : String
  Database : String
  DataFromYAML : String
  Version : Bool
deriving Repr, DecidableEq

/-- A Go `context.Context` as far as the coordinator uses it: it either
carries a deadline instant or does not. -/
structure Context where
  deadline : Option Nat
deriving Repr, DecidableEq

/-- `context.Background()`: carries no deadline. -/
def Context.background : Context := { deadline := none }

/-- Whether a context carries a deadline. -/
def Context.hasDeadline (c : Context) : Bool := c.deadline.isSome

/-- The single context `runServer` creates (main.go line 124,
`ctx := context.Background()`) and passes to both `bqServer.Serve`
and `bqServer.Stop`. -/
def runServerCtx : Context := Context.background

/-- The engine facade's behavior, embedded as the outcome each call
delivers to the coordinator: `none` means the Go call returned `nil`.
`serveResult` is the value the serve goroutine forwards on the
completion channel `done`; `stopErr` is what `bqServer.Stop(ctx)`
returns to the signal-watch goroutine. -/
structure EngineBehavior where
  newErr : Option GoError
  setProjectErr : Option GoError
  loadStructErr : Option GoError
  setLogLevelErr : Option GoError
  setLogFormatErr : Option GoError
  loadYAMLErr : Option GoError
  serveResult : Option GoError
  stopErr : Option GoError
deriving Repr, DecidableEq

/-- One observable step of `runServer`, in program order. -/
inductive Event where
  | printVersion
  | selectStorageEv (db : Storage)
  | buildProjectEv
  | engineNew
  | setProjectEv (id : String)
  | loadStruct (p : Project)
  | setLogLevelEv
  | setLogFormatEv
  | loadYAML (path : String)
  | spawnSignalWatch
  | spawnServe (httpAddr grpcAddr : String)
  | recvDone (r : Option GoError)
deriving Repr, DecidableEq

/-- The HTTP listen address `fmt.Sprintf("%s:%d", opt.Host, opt.HTTPPort)`. -/
def httpAddrOf (opt : option) : String := opt.Host ++ ":" ++ toString opt.HTTPPort

/-- The gRPC listen address `fmt.Sprintf("%s:%d", opt.Host, opt.GRPCPort)`. -/
def grpcAddrOf (opt : option) : String := opt.Host ++ ":" ++ toString opt.GRPCPort

/-- The tail of `runServer` after setup succeeded (main.go lines
124-153): spawn the signal-watch goroutine, spawn the serve goroutine,
block on the completion channel `done`, and map the received value
through `errors.Is(err, http.ErrServerClosed)`. -/
def servePhase (opt : option) (eng : EngineBehavior) (ev : List Event) :
    Option GoError × List Event :=
  let ev2 := ev ++ [Event.spawnSignalWatch,
                    Event.spawnServe (httpAddrOf opt) (grpcAddrOf opt),
                    Event.recvDone eng.serveResult]
  if eng.serveResult = some GoError.serverClosed then (none, ev2)
  else (eng.serveResult, ev2)

/-- `runServer` (main.go lines 84-156), instrumented with the event
trace.  The returned pair is (the Go return value, the trace of steps
performed, in order). -/
def runServer (opt : option) (eng : EngineBehavior) : Option GoError × List Event :=
  if opt.Version then (none, [Event.printVersion])
  else if opt.Project = "" then
    (some (GoError.msg "the required flag --project was not specified"), [])
  else
    let db := selectStorage opt.Database
    let project := buildProject opt.Project opt.Dataset
    let ev0 := [Event.selectStorageEv db, Event.buildProjectEv, Event.engineNew]
    match eng.newErr with
    | some e => (some e, ev0)
    | none =>
      let ev1 := ev0 ++ [Event.setProjectEv project.ID]
      match eng.setProjectErr with
      | some e => (some e, ev1)
      | none =>
        let ev2 := ev1 ++ [Event.loadStruct project]
        match eng.loadStructErr with
        | some e => (some e, ev2)
        | none =>
          let ev3 := ev2 ++ [Event.setLogLevelEv]
          match eng.setLogLevelErr with
          | some e => (some e, ev3)
          | none =>
            let ev4 := ev3 ++ [Event.setLogFormatEv]
            match eng.setLogFormatErr with
            | some e => (some e, ev4)
            | none =>
              if opt.DataFromYAML = "" then servePhase opt eng ev4
              else
                let ev5 := ev4 ++ [Event.loadYAML opt.DataFromYAML]
                match eng.loadYAMLErr with
                | some e => (some e, ev5)
                | none => servePhase opt eng ev5

/-- A line written to the process's standard output or standard error. -/
inductive LogLine where
  | stdout (s : String)
  | stderr (s : String)
deriving Repr, DecidableEq

/-- The body of the signal-watch goroutine (main.go lines 128-136) once
the signal `sig` has arrived: print the receipt notice, call
`bqServer.Stop(ctx)` and, if it errors, write the failure to stderr.
The goroutine's only effect is its log output; it returns nothing. -/
def signalWatchTask (eng : EngineBehavior) (sig : String) : List LogLine :=
  [LogLine.stdout ("[bigquery-emulator] receive " ++ sig ++ ". shutdown gracefully")] ++
  (match eng.stopErr with
   | some e => [LogLine.stderr ("[bigquery-emulator] failed to stop: " ++ e.message)]
   | none => [])

/-- The stop call made by the signal-watch goroutine: the context it
passes (the `ctx` of main.go line 124) and the outcome it receives. -/
def stopInvocation (eng : EngineBehavior) : Context × Option GoError :=
  (runServerCtx, eng.stopErr)

/-- The process exit code type of main.go. -/
inductive exitCode where
  | exitOK
  | exitError
deriving Repr, DecidableEq

/-- The classification of a `parser.Parse()` failure that `run`
distinguishes: a `*flags.Error` whose `Type` is `flags.ErrHelp`, a
`*flags.Error` of any other type, or an error that is not a
`*flags.Error` at all. -/
inductive OptParseError where
  | flagsHelp
  | flagsOther (t : String)
  | unknownError (s : String)
deriving Repr, DecidableEq

/-- `run` (main.go lines 47-70), over the outcomes of the two excluded
parsing collaborators (`parseEnv`, `parseOpt`) and the engine behavior:
env-parse failure exits 1; a help-type flags error exits 0; any other
parse failure exits 1; otherwise the exit code is 0 exactly when
`runServer` returns `nil`. -/
def run (envErr : Option String) (optErr : Option OptParseError)
    (opt : option) (eng : EngineBehavior) : exitCode :=
  match envErr with
  | some _ => exitCode.exitError
  | none =>
    match optErr with
    | some OptParseError.flagsHelp => exitCode.exitOK
    | some (OptParseError.flagsOther _) => exitCode.exitError
    | some (OptParseError.unknownError _) => exitCode.exitError
    | none =>
      match (runServer opt eng).1 with
      | some _ => exitCode.exitError
      | none => exitCode.exitOK

/-- The seed-application events of a trace, in order. -/
def seedEvents (t : List Event) : List Event :=
  t.filter fun e =>
    match e with
    | Event.loadStruct _ => true
    | Event.loadYAML _ => true
    | _ => false

/-- No listener-serving or signal-watching task was ever spawned in the
trace. -/
def noSpawn (t : List Event) : Prop :=
  Event.spawnSignalWatch ∉ t ∧ ∀ a b, Event.spawnServe a b ∉ t

/-- A concrete well-formed configuration (the spec's scenario:
tenant proj1, dataset ds1, defaults elsewhere), used by witnesses. -/
def optOK : option :=
  { Project := "proj1", Dataset := "ds1", Host := "0.0.0.0",
    HTTPPort := 9050, GRPCPort := 9060, LogLevel := "error",
    LogFormat := "console", Database := "", DataFromYAML := "",
    Version := false }

/-- A concrete engine behavior in which every setup call succeeds and
serve ends with the `http.ErrServerClosed` sentinel, used by witnesses. -/
def engOK : EngineBehavior :=
  { newErr := none, setProjectErr := none, loadStructErr := none,
    setLogLevelErr := none, setLogFormatErr := none, loadYAMLErr := none,
    serveResult := some GoError.serverClosed, stopErr := none }

/-- C5: storage selection is the pure total mapping of main.go lines
92-97: an empty database path selects the ephemeral in-memory handle,
and a non-empty path selects exactly the string
"file:<path>?cache=shared". -/
theorem C5_storage_selection (database : String) :
    (database = "" → selectStorage database = TempStorage) ∧
    (database ≠ "" →
      selectStorage database = "file:" ++ database ++ "?cache=shared") := by
  constructor
  · intro h
    simp [selectStorage, h]
  · intro h
    simp [selectStorage, h]

/-- Witness for C5 at the empty path and at the path "x.db". -/
theorem C5_storage_selection_witness :
    selectStorage "" = TempStorage ∧
    selectStorage "x.db" = "file:x.db?cache=shared" :=
  ⟨(C5_storage_selection "").1 rfl, (C5_storage_selection "x.db").2 (by decide)⟩

/-- C9: constructing the initial tenant object twice from an identical
configuration yields structurally identical trees: the same project
identifier, and exactly one dataset with the configured name when the
dataset option is non-empty, and no datasets otherwise. -/
theorem C9_tenant_idempotent (projectID datasetID : String) :
    buildProject projectID datasetID = buildProject projectID datasetID ∧
    (buildProject projectID datasetID).ID = projectID ∧
    (datasetID ≠ "" →
      (buildProject projectID datasetID).Datasets = [NewDataset datasetID]) ∧
    (datasetID = "" → (buildProject projectID datasetID).Datasets = []) := by
  refine ⟨rfl, ?_, ?_, ?_⟩
  · by_cases h : datasetID = "" <;> simp [buildProject, NewProject, h]
  · intro h
    simp [buildProject, NewProject, h]
  · intro h
    simp [buildProject, NewProject, h]

/-- Witness for C9 at project proj1 with dataset ds1 and with the empty
dataset. -/
theorem C9_tenant_idempotent_witness :
    (buildProject "proj1" "ds1").ID = "proj1" ∧
    (buildProject "proj1" "ds1").Datasets = [NewDataset "ds1"] ∧
    (buildProject "proj1" "").Datasets = [] :=
  ⟨(C9_tenant_idempotent "proj1" "ds1").2.1,
   (C9_tenant_idempotent "proj1" "ds1").2.2.1 (by decide),
   (C9_tenant_idempotent "proj1" "").2.2.2 rfl⟩

/-- C10: when the version flag is set, `runServer` returns `nil` after
only printing the version: the trace holds the print step alone, so the
project check, storage selection, engine construction, seeding and
listener start are all skipped, whatever the rest of the configuration
(including an empty project) and whatever the engine would do. -/
theorem C10_version_short_circuit (opt : option) (eng : EngineBehavior)
    (hv : opt.Version = true) :
    (runServer opt eng).1 = none ∧
    (runServer opt eng).2 = [Event.printVersion] := by
  constructor <;> simp [runServer, hv]

/-- Witness for C10: version flag set with an empty project still
returns success and performs only the print step. -/
theorem C10_version_short_circuit_witness :
    (runServer { optOK with Project := "", Version := true } engOK).1 = none ∧
    (runServer { optOK with Project := "", Version := true } engOK).2 =
      [Event.printVersion] :=
  C10_version_short_circuit { optOK with Project := "", Version := true } engOK rfl

/-- C2: with the version flag unset and an empty project, `runServer`
fails with the missing-project configuration error, the process exits
with code 1, and the trace shows that engine construction, both seed
applications and both task spawns never happened. -/
theorem C2_missing_project (opt : option) (eng : EngineBehavior)
    (hv : opt.Version = false) (hp : opt.Project = "") :
    (runServer opt eng).1 =
      some (GoError.msg "the required flag --project was not specified") ∧
    run none none opt eng = exitCode.exitError ∧
    Event.engineNew ∉ (runServer opt eng).2 ∧
    (∀ p, Event.loadStruct p ∉ (runServer opt eng).2) ∧
    (∀ path, Event.loadYAML path ∉ (runServer opt eng).2) ∧
    noSpawn (runServer opt eng).2 := by
  have ht : (runServer opt eng).2 = [] := by
    simp [runServer, hv, hp]
  have hr : (runServer opt eng).1 =
      some (GoError.msg "the required flag --project was not specified") := by
    simp [runServer, hv, hp]
  refine ⟨hr, ?_, ?_, ?_, ?_, ?_, ?_⟩
  · simp [run, hr]
  · simp [ht]
  · intro p; simp [ht]
  · intro path; simp [ht]
  · simp [ht]
  · intro a b; simp [ht]

/-- Witness for C2 at a configuration with an empty project. -/
theorem C2_missing_project_witness :
    (runServer { optOK with Project := "" } engOK).1 =
      some (GoError.msg "the required flag --project was not specified") ∧
    run none none { optOK with Project := "" } engOK = exitCode.exitError :=
  ⟨(C2_missing_project { optOK with Project := "" } engOK rfl rfl).1,
   (C2_missing_project { optOK with Project := "" } engOK rfl rfl).2.1⟩

/-- C8: `run` maps a help-type flags error to exit code 0; a set version
flag makes `runServer` return `nil`, hence exit code 0; and every
non-nil `runServer` error yields exit code 1. -/
theorem C8_exit_codes (opt : option) (eng : EngineBehavior) :
    run none (some OptParseError.flagsHelp) opt eng = exitCode.exitOK ∧
    (opt.Version = true →
      (runServer opt eng).1 = none ∧ run none none opt eng = exitCode.exitOK) ∧
    (∀ e, (runServer opt eng).1 = some e →
      run none none opt eng = exitCode.exitError) := by
  refine ⟨rfl, ?_, ?_⟩
  · intro hv
    have hr : (runServer opt eng).1 = none := by
      simp [runServer, hv]
    exact ⟨hr, by simp [run, hr]⟩
  · intro e he
    simp [run, he]

/-- Witness for C8: help request exits 0; a version request with the
rest of the configuration arbitrary exits 0; the missing-project error
exits 1. -/
theorem C8_exit_codes_witness :
    run none (some OptParseError.flagsHelp) optOK engOK = exitCode.exitOK ∧
    run none none { optOK with Version := true } engOK = exitCode.exitOK ∧
    run none none { optOK with Project := "" } engOK = exitCode.exitError :=
  ⟨(C8_exit_codes optOK engOK).1,
   ((C8_exit_codes { optOK with Version := true } engOK).2.1 rfl).2,
   (C8_exit_codes { optOK with Project := "" } engOK).2.2
     (GoError.msg "the required flag --project was not specified") rfl⟩

/-- C1: once setup succeeds, the coordinator's result comes from the
value the serve goroutine delivers on the completion channel: the
`http.ErrServerClosed` sentinel makes `runServer` return `nil` and the
process exit 0; any other error is returned as is and the process
exits 1. -/
theorem C1_exit_from_serve (opt : option) (eng : EngineBehavior)
    (hv : opt.Version = false) (hp : opt.Project ≠ "")
    (h1 : eng.newErr = none) (h2 : eng.setProjectErr = none)
    (h3 : eng.loadStructErr = none) (h4 : eng.setLogLevelErr = none)
    (h5 : eng.setLogFormatErr = none) (h6 : eng.loadYAMLErr = none) :
    (eng.serveResult = some GoError.serverClosed →
      (runServer opt eng).1 = none ∧ run none none opt eng = exitCode.exitOK) ∧
    (∀ s, eng.serveResult = some (GoError.msg s) →
      (runServer opt eng).1 = some (GoError.msg s) ∧
      run none none opt eng = exitCode.exitError) := by
  have key : (runServer opt eng).1 =
      (if eng.serveResult = some GoError.serverClosed then none
       else eng.serveResult) := by
    by_cases hy : opt.DataFromYAML = "" <;>
      by_cases hs : eng.serveResult = some GoError.serverClosed <;>
        simp [runServer, servePhase, hv, hp, h1, h2, h3, h4, h5, h6, hy, hs]
  constructor
  · intro hs
    have hr : (runServer opt eng).1 = none := by
      rw [key]; simp [hs]
    exact ⟨hr, by simp [run, hr]⟩
  · intro s hs
    have hr : (runServer opt eng).1 = some (GoError.msg s) := by
      rw [key]; simp [hs]
    exact ⟨hr, by simp [run, hr]⟩

/-- Witness for C1: with a well-formed configuration and a serve result
equal to the closed sentinel, the process exits 0. -/
theorem C1_exit_from_serve_witness :
    (runServer optOK engOK).1 = none ∧
    run none none optOK engOK = exitCode.exitOK :=
  (C1_exit_from_serve optOK engOK rfl (by decide) rfl rfl rfl rfl rfl rfl).1 rfl

/-- C6: when the stop call made by the signal-watch goroutine errors,
the error is only written to the stderr log; the `runServer` result and
the process exit code are unchanged by it, whatever the rest of the
configuration and engine behavior. -/
theorem C6_stop_error_logged_not_propagated (opt : option)
    (eng : EngineBehavior) (e : GoError) (sig : String) :
    signalWatchTask { eng with stopErr := some e } sig =
      [LogLine.stdout ("[bigquery-emulator] receive " ++ sig ++
         ". shutdown gracefully"),
       LogLine.stderr ("[bigquery-emulator] failed to stop: " ++ e.message)] ∧
    (runServer opt { eng with stopErr := some e }).1 =
      (runServer opt { eng with stopErr := none }).1 ∧
    run none none opt { eng with stopErr := some e } =
      run none none opt { eng with stopErr := none } := by
  refine ⟨rfl, rfl, rfl⟩

/-- A configuration with a seed-file path, used by witnesses. -/
def optYAML : option := { optOK with DataFromYAML := "seed.yaml" }

/-- C3: once seeding is reached (version unset, project present, engine
construction and tenant setup succeeded), the structured seed is applied
unconditionally; no file seed is applied when no path is configured;
and whenever the file seed is applied, its path is the configured one,
that path is non-empty, and the seed applications in the trace are
exactly the structured one followed by the file one. -/
theorem C3_seed_order (opt : option) (eng : EngineBehavior)
    (hv : opt.Version = false) (hp : opt.Project ≠ "")
    (h1 : eng.newErr = none) (h2 : eng.setProjectErr = none) :
    Event.loadStruct (buildProject opt.Project opt.Dataset) ∈
      (runServer opt eng).2 ∧
    (opt.DataFromYAML = "" →
      ∀ path, Event.loadYAML path ∉ (runServer opt eng).2) ∧
    (∀ path, Event.loadYAML path ∈ (runServer opt eng).2 →
      path = opt.DataFromYAML ∧ opt.DataFromYAML ≠ "" ∧
      seedEvents (runServer opt eng).2 =
        [Event.loadStruct (buildProject opt.Project opt.Dataset),
         Event.loadYAML opt.DataFromYAML]) := by
  rcases h3 : eng.loadStructErr with _ | e3 <;>
    rcases h4 : eng.setLogLevelErr with _ | e4 <;>
      rcases h5 : eng.setLogFormatErr with _ | e5 <;>
        by_cases hy : opt.DataFromYAML = "" <;>
          rcases h6 : eng.loadYAMLErr with _ | e6 <;>
            by_cases hs : eng.serveResult = some GoError.serverClosed <;>
              refine ⟨?_, ?_, ?_⟩ <;>
                simp [runServer, servePhase, seedEvents, hv, hp, h1, h2, h3,
                      h4, h5, hy, h6, hs]

/-- Witness for C3 at a configuration with a seed file: the structured
seed event is in the trace and the seed events are exactly the
structured one then the file one. -/
theorem C3_seed_order_witness :
    Event.loadStruct (buildProject "proj1" "ds1") ∈
      (runServer optYAML engOK).2 ∧
    seedEvents (runServer optYAML engOK).2 =
      [Event.loadStruct (buildProject "proj1" "ds1"),
       Event.loadYAML "seed.yaml"] :=
  ⟨(C3_seed_order optYAML engOK rfl (by decide) rfl rfl).1,
   ((C3_seed_order optYAML engOK rfl (by decide) rfl rfl).2.2 "seed.yaml"
     (by decide)).2.2⟩

/-- C4: a failing seed application (structured or file-based) is
returned immediately and no task is spawned; conversely, a spawned
signal-watch or serve task in the trace implies every setup step
(engine construction, tenant setup, structured seed, both log setters,
and the file seed when configured) succeeded. -/
theorem C4_no_listener_after_seed_error (opt : option) (eng : EngineBehavior)
    (hv : opt.Version = false) (hp : opt.Project ≠ "") :
    (∀ e, eng.newErr = none → eng.setProjectErr = none →
      eng.loadStructErr = some e →
      (runServer opt eng).1 = some e ∧ noSpawn (runServer opt eng).2) ∧
    (∀ e, eng.newErr = none → eng.setProjectErr = none →
      eng.loadStructErr = none → eng.setLogLevelErr = none →
      eng.setLogFormatErr = none → opt.DataFromYAML ≠ "" →
      eng.loadYAMLErr = some e →
      (runServer opt eng).1 = some e ∧ noSpawn (runServer opt eng).2) ∧
    ((Event.spawnSignalWatch ∈ (runServer opt eng).2 ∨
        ∃ a b, Event.spawnServe a b ∈ (runServer opt eng).2) →
      eng.newErr = none ∧ eng.setProjectErr = none ∧
      eng.loadStructErr = none ∧ eng.setLogLevelErr = none ∧
      eng.setLogFormatErr = none ∧
      (opt.DataFromYAML ≠ "" → eng.loadYAMLErr = none)) := by
  refine ⟨?_, ?_, ?_⟩
  · intro e h1 h2 h3
    simp [noSpawn, runServer, hv, hp, h1, h2, h3]
  · intro e h1 h2 h3 h4 h5 hy h6
    simp [noSpawn, runServer, hv, hp, h1, h2, h3, h4, h5, hy, h6]
  · intro hmem
    rcases h1 : eng.newErr with _ | e1
    · rcases h2 : eng.setProjectErr with _ | e2
      · rcases h3 : eng.loadStructErr with _ | e3
        · rcases h4 : eng.setLogLevelErr with _ | e4
          · rcases h5 : eng.setLogFormatErr with _ | e5
            · by_cases hy : opt.DataFromYAML = ""
              · exact ⟨rfl, rfl, rfl, rfl, rfl, fun hc => (hc hy).elim⟩
              · rcases h6 : eng.loadYAMLErr with _ | e6
                · exact ⟨rfl, rfl, rfl, rfl, rfl, fun _ => rfl⟩
                · exfalso
                  simp [runServer, hv, hp, h1, h2, h3, h4, h5, hy, h6] at hmem
            · exfalso
              simp [runServer, hv, hp, h1, h2, h3, h4, h5] at hmem
          · exfalso
            simp [runServer, hv, hp, h1, h2, h3, h4] at hmem
        · exfalso
          simp [runServer, hv, hp, h1, h2, h3] at hmem
      · exfalso
        simp [runServer, hv, hp, h1, h2] at hmem
    · exfalso
      simp [runServer, hv, hp, h1] at hmem

/-- An engine in which the structured seed application fails, used by
witnesses. -/
def engSeedFail : EngineBehavior :=
  { engOK with loadStructErr := some (GoError.msg "broken seed") }

/-- Witness for C4: a failing structured seed is returned as the
`runServer` error and neither task is spawned. -/
theorem C4_no_listener_after_seed_error_witness :
    (runServer optOK engSeedFail).1 = some (GoError.msg "broken seed") ∧
    noSpawn (runServer optOK engSeedFail).2 :=
  (C4_no_listener_after_seed_error optOK engSeedFail rfl (by decide)).1
    (GoError.msg "broken seed") rfl rfl rfl

/-- C7 counterexample: the context the signal-watch goroutine passes to
the stop call is `context.Background()` (main.go line 124), which
carries no deadline — the claim that the stop context carries a
deadline is false of the code. -/
theorem C7_counterexample :
    Context.hasDeadline (stopInvocation engOK).1 = false := rfl

/-- C7 (amended): the context passed to the stop call is the background
context and carries no deadline, so the coordinator itself does not
bound the graceful drain; nevertheless, when stop returns an error the
process still proceeds to exit via the completion channel, its result
derived from the serve task's value. -/
theorem C7_amended_stop_context (opt : option) (eng : EngineBehavior)
    (e : GoError)
    (hv : opt.Version = false) (hp : opt.Project ≠ "")
    (h1 : eng.newErr = none) (h2 : eng.setProjectErr = none)
    (h3 : eng.loadStructErr = none) (h4 : eng.setLogLevelErr = none)
    (h5 : eng.setLogFormatErr = none) (h6 : eng.loadYAMLErr = none)
    (hstop : eng.stopErr = some e) :
    (stopInvocation eng).1 = Context.background ∧
    Context.hasDeadline (stopInvocation eng).1 = false ∧
    (stopInvocation eng).2 = some e ∧
    Event.recvDone eng.serveResult ∈ (runServer opt eng).2 ∧
    (runServer opt eng).1 =
      (if eng.serveResult = some GoError.serverClosed then none
       else eng.serveResult) := by
  refine ⟨rfl, rfl, hstop, ?_, ?_⟩
  · by_cases hy : opt.DataFromYAML = "" <;>
      by_cases hs : eng.serveResult = some GoError.serverClosed <;>
        simp [runServer, servePhase, hv, hp, h1, h2, h3, h4, h5, h6, hy, hs]
  · by_cases hy : opt.DataFromYAML = "" <;>
      by_cases hs : eng.serveResult = some GoError.serverClosed <;>
        simp [runServer, servePhase, hv, hp, h1, h2, h3, h4, h5, h6, hy, hs]

/-- An engine whose stop call fails, used by witnesses. -/
def engStopFail : EngineBehavior :=
  { engOK with stopErr := some (GoError.msg "drain incomplete") }

/-- Witness for C7 (amended): with a failing stop, the stop context is
the background context, the completion channel is still consumed, and
the process result is still success since serve delivered the closed
sentinel. -/
theorem C7_amended_stop_context_witness :
    (stopInvocation engStopFail).1 = Context.background ∧
    Event.recvDone engStopFail.serveResult ∈ (runServer optOK engStopFail).2 ∧
    (runServer optOK engStopFail).1 = none := by
  have h := C7_amended_stop_context optOK engStopFail
    (GoError.msg "drain incomplete") rfl (by decide) rfl rfl rfl rfl rfl rfl rfl
  refine ⟨h.1, h.2.2.2.1, ?_⟩
  rw [h.2.2.2.2]
  rfl

end BQE
